import Mathlib

/-
Verification of the desired-state compiler and merge-reconciler of the
postgres controller (src/vendor/kubedb.dev/postgres/pkg/controller/service.go).

The Go source is shallowly embedded below: pure derivation functions become
Lean functions over record models of the Kubernetes objects; Go nil pointers
become Option; Go panics (nil dereference, out-of-range index) surface as
Option.none results.  Helper functions from client-go libraries that are not
part of the given source (upsert-by-name merge helpers, CreateOrPatch, object
naming and labels) are modelled from the specification (spec.md sections
3, 4.2, 4.3 and 6) and are marked as such in their doc comments.
-/

set_option maxRecDepth 10000

namespace PostgresController

/-- Outcome type of a create-or-patch reconciliation (kutil.VerbType):
one of Unchanged, Created, Patched. -/
inductive VerbType where
  | unchanged
  | created
  | patched
deriving DecidableEq, Repr

/-- Decidable equality of reconcile results. -/
instance instDecEqExcept {e a : Type} [DecidableEq e] [DecidableEq a] :
    DecidableEq (Except e a) := fun x y =>
  match x, y with
  | Except.ok u, Except.ok v =>
    if h : u = v then isTrue (by rw [h]) else isFalse (fun hc => h (Except.ok.inj hc))
  | Except.error u, Except.error v =>
    if h : u = v then isTrue (by rw [h]) else isFalse (fun hc => h (Except.error.inj hc))
  | Except.ok _, Except.error _ => isFalse (fun hc => Except.noConfusion hc)
  | Except.error _, Except.ok _ => isFalse (fun hc => Except.noConfusion hc)

/-- Indirect value of an environment variable (core.EnvVarSource): either a
downward-API field reference or a secret key reference. -/
inductive EnvVarSource where
  | fieldRef (fieldPath : String)
  | secretKeyRef (secretName : String) (key : String)
deriving DecidableEq, Repr

/-- Environment variable (core.EnvVar). -/
structure EnvVar where
  name : String
  value : String := ""
  valueFrom : Option EnvVarSource := none
deriving DecidableEq, Repr

/-- Container port (core.ContainerPort). -/
structure ContainerPort where
  name : String := ""
  containerPort : Int := 0
  protocol : String := ""
deriving DecidableEq, Repr

/-- Volume mount (core.VolumeMount). -/
structure VolumeMount where
  name : String
  mountPath : String := ""
deriving DecidableEq, Repr

/-- Volume source (core.VolumeSource): the embedding keeps the secret and
emptyDir shapes used by the controller and treats user-supplied sources as
opaque descriptors. -/
inductive VolumeSource where
  | secret (secretName : String)
  | emptyDir (medium : String) (sizeLimit : Option String)
  | other (descriptor : String)
deriving DecidableEq, Repr

/-- Named volume (core.Volume). -/
structure Volume where
  name : String
  volumeSource : VolumeSource
deriving DecidableEq, Repr

/-- Container security context (core.SecurityContext): the embedding keeps
the fields the controller sets. -/
structure SecurityContextModel where
  privileged : Option Bool := none
  capabilitiesAdd : List String := []
deriving DecidableEq, Repr

/-- Container (core.Container); opaque leaf values (resources, probes,
lifecycle) are kept as plain strings so that assignment flow is preserved. -/
structure Container where
  name : String
  args : List String := []
  env : List EnvVar := []
  image : String := ""
  imagePullPolicy : String := ""
  ports : List ContainerPort := []
  resources : String := ""
  livenessProbe : Option String := none
  readinessProbe : Option String := none
  lifecycle : Option String := none
  securityContext : Option SecurityContextModel := none
  volumeMounts : List VolumeMount := []
deriving DecidableEq, Repr

/-- Persistent volume claim spec (core.PersistentVolumeClaimSpec):
access modes, requested storage size and storage class. -/
structure PVCSpecModel where
  accessModes : List String := []
  requestsStorage : Option String := none
  storageClassName : Option String := none
deriving DecidableEq, Repr

/-- Persistent volume claim template (core.PersistentVolumeClaim). -/
structure PersistentVolumeClaimModel where
  name : String
  annotations : List (String × String) := []
  spec : PVCSpecModel := {}
deriving DecidableEq, Repr

/-- Pod spec (core.PodSpec): the fields the controller touches. -/
structure PodSpecModel where
  initContainers : List Container := []
  containers : List Container := []
  volumes : List Volume := []
  nodeSelector : List (String × String) := []
  affinity : Option String := none
  schedulerName : String := ""
  tolerations : List String := []
  imagePullSecrets : List String := []
  priorityClassName : String := ""
  priority : Option Int := none
  securityContext : Option String := none
  serviceAccountName : String := ""
deriving DecidableEq, Repr

/-- Pod template (core.PodTemplateSpec). -/
structure PodTemplateModel where
  labels : List (String × String) := []
  annotations : List (String × String) := []
  spec : PodSpecModel := {}
deriving DecidableEq, Repr

/-- StatefulSet spec (apps.StatefulSetSpec): the fields the controller
touches. -/
structure StatefulSetSpecModel where
  replicas : Option Int := none
  serviceName : String := ""
  selectorMatchLabels : Option (List (String × String)) := none
  template : PodTemplateModel := {}
  volumeClaimTemplates : List PersistentVolumeClaimModel := []
  updateStrategyType : String := ""
deriving DecidableEq, Repr

/-- StatefulSet (apps.StatefulSet), with object metadata flattened: name,
namespace, labels, annotations, owner references. -/
structure StatefulSet where
  name : String := ""
  ns : String := ""
  labels : List (String × String) := []
  annotations : List (String × String) := []
  ownerReferences : List String := []
  spec : StatefulSetSpecModel := {}
deriving DecidableEq, Repr

/-- S3 backend reference (store.S3Spec).  The source field name of pfx is
Prefix. -/
structure S3Spec where
  bucket : String := ""
  pfx : String := ""
  endpoint : String := ""
  region : String := ""
deriving DecidableEq, Repr

/-- GCS backend reference (store.GcsSpec).  The source field name of pfx is
Prefix. -/
structure GCSSpec where
  bucket : String := ""
  pfx : String := ""
deriving DecidableEq, Repr

/-- Azure backend reference (store.AzureSpec).  The source field name of pfx
is Prefix. -/
structure AzureSpec where
  container : String := ""
  pfx : String := ""
deriving DecidableEq, Repr

/-- Swift backend reference (store.SwiftSpec).  The source field name of pfx
is Prefix. -/
structure SwiftSpec where
  container : String := ""
  pfx : String := ""
deriving DecidableEq, Repr

/-- Local backend reference (store.LocalSpec): a directly mounted volume
source with a mount path and sub path. -/
structure LocalSpec where
  mountPath : String := ""
  subPath : String := ""
  volumeSource : VolumeSource := VolumeSource.other ("")
deriving DecidableEq, Repr

/-- Storage backend union (store.Backend): at most one of S3, GCS, Azure,
Swift, Local is expected to be set, plus a credentials secret name.  The
source field name of localVol is Local. -/
structure Backend where
  storageSecretName : String := ""
  s3 : Option S3Spec := none
  gcs : Option GCSSpec := none
  azure : Option AzureSpec := none
  swift : Option SwiftSpec := none
  localVol : Option LocalSpec := none
deriving DecidableEq, Repr

/-- Point-in-time-recovery target (api.PITRSpec): targetInclusive is a Go
bool pointer, hence Option Bool. -/
structure PITRSpec where
  targetTime : String := ""
  targetTimeline : String := ""
  targetXID : String := ""
  targetInclusive : Option Bool := none
deriving DecidableEq, Repr

/-- Restore WAL source (api.PostgresWALSourceSpec): an embedded storage
backend union plus an optional PITR target. -/
structure PostgresWALSourceSpec extends Backend where
  pitr : Option PITRSpec := none
deriving DecidableEq, Repr

/-- Archiver spec (api.PostgresArchiverSpec): an optional storage backend. -/
structure PostgresArchiverSpec where
  storage : Option Backend := none
deriving DecidableEq, Repr

/-- Init script source (api.ScriptSourceSpec): a volume source. -/
structure ScriptSourceSpec where
  volumeSource : VolumeSource := VolumeSource.other ("")
deriving DecidableEq, Repr

/-- Initialization source (api.InitSpec): optional restore-from-WAL and
optional init script. -/
structure InitSpec where
  postgresWAL : Option PostgresWALSourceSpec := none
  script : Option ScriptSourceSpec := none
deriving DecidableEq, Repr

/-- Monitoring configuration (api/mona AgentSpec): vendor tag of the agent
plus the exporter settings the controller reads. -/
structure MonitorSpec where
  agentVendor : String := ""
  exporterPort : Int := 56790
  exporterArgs : List String := []
  exporterEnv : List EnvVar := []
  exporterResources : String := ""
  exporterSecurityContext : Option SecurityContextModel := none
deriving DecidableEq, Repr

/-- Leader election timing parameters (api.LeaderElectionConfig). -/
structure LeaderElectionConfig where
  leaseDurationSeconds : Int := 15
  renewDeadlineSeconds : Int := 10
  retryPeriodSeconds : Int := 2
deriving DecidableEq, Repr

/-- Pod template overrides of the database spec (ofst.PodTemplateSpec):
the fields the controller reads. -/
structure PodTemplate where
  controllerAnnotations : List (String × String) := []
  annotations : List (String × String) := []
  initContainers : List Container := []
  env : List EnvVar := []
  resources : String := ""
  livenessProbe : Option String := none
  readinessProbe : Option String := none
  lifecycle : Option String := none
  nodeSelector : List (String × String) := []
  affinity : Option String := none
  schedulerName : String := ""
  tolerations : List String := []
  imagePullSecrets : List String := []
  priorityClassName : String := ""
  priority : Option Int := none
  securityContext : Option String := none
  serviceAccountName : String := ""
deriving DecidableEq, Repr

/-- Database spec (api.PostgresSpec): the fields the controller reads. -/
structure PostgresSpec where
  replicas : Option Int := none
  standbyMode : Option String := none
  streamingMode : Option String := none
  leaderElection : Option LeaderElectionConfig := none
  archiver : Option PostgresArchiverSpec := none
  init : Option InitSpec := none
  monitor : Option MonitorSpec := none
  configSecret : Option String := none
  authSecretName : String := ""
  storageType : String := ""
  storage : Option PVCSpecModel := none
  podTemplate : PodTemplate := {}
deriving DecidableEq, Repr

/-- Database object (api.Postgres): metadata, spec and status conditions. -/
structure Postgres where
  name : String := ""
  ns : String := ""
  spec : PostgresSpec := {}
  statusConditions : List String := []
deriving DecidableEq, Repr

/-- Operator options read by the mutator (fields of the Controller). -/
structure ControllerModel where
  enableAnalytics : Bool := false
  loggerFlags : List String := []
  analyticsClientID : String := ""
deriving DecidableEq, Repr

/-- Catalog version entry (catalog.PostgresVersion): database image and
exporter image. -/
structure PostgresVersionModel where
  dbImage : String := ""
  exporterImage : String := ""
deriving DecidableEq, Repr

/-! Constants of the source (api and mona packages). -/

def ResourceKindPostgres : String := "Postgres"
def ResourceSingularPostgres : String := "postgres"
def LabelDatabaseKind : String := "kubedb.com/kind"
def LabelDatabaseName : String := "kubedb.com/name"
def PostgresDatabasePort : Int := 5432
def PostgresDatabasePortName : String := "db"
def VendorPrometheus : String := "prometheus.io"
def PrometheusExporterPortName : String := "metrics"
def DatabaseDataRestored : String := "DataRestored"
def StorageTypeEphemeral : String := "Ephemeral"
def ReadWriteOnce : String := "ReadWriteOnce"
def WarmPostgresStandbyMode : String := "Warm"
def AsynchronousPostgresStreamingMode : String := "Asynchronous"
def BasicAuthUsernameKey : String := "username"
def BasicAuthPasswordKey : String := "password"
def EnvPostgresUser : String := "POSTGRES_USER"
def EnvPostgresPassword : String := "POSTGRES_PASSWORD"
def AnalyticsKey : String := "APPSCODE_ANALYTICS_CLIENT_ID"
def LeaseDurationEnv : String := "LEASE_DURATION"
def RenewDeadlineEnv : String := "RENEW_DEADLINE"
def RetryPeriodEnv : String := "RETRY_PERIOD"

/-! Naming and label helpers of the database object.  These live outside the
given source file. -/

/-- Modelled from the spec: the workload and primary endpoint name is a pure
function of the instance identity (spec.md section 3,
ManagedResourceIdentity). -/
def OffshootName (db : Postgres) : String := db.name

/-- Modelled from the spec: the governing (headless) endpoint name, distinct
and stable for the instance (spec.md section 3). -/
def GoverningServiceName (db : Postgres) : String := db.name ++ "-pods"

/-- Modelled from the spec: the primary endpoint address used as
PRIMARY_HOST (spec.md section 4.1 step 1). -/
def ServiceName (db : Postgres) : String := db.name

/-- Modelled from the spec: the metrics endpoint telemetry path (spec.md
section 4.1, exporter settings). -/
def StatsServicePath (_db : Postgres) : String := "/metrics"

/-- Modelled from the spec: the fixed identifying label set carried by every
managed resource (spec.md section 3, invariants), including the database
kind and database name labels checked by checkStatefulSet. -/
def OffshootLabels (db : Postgres) : List (String × String) :=
  [(LabelDatabaseKind, ResourceKindPostgres), (LabelDatabaseName, db.name)]

/-- Modelled from the spec: the fixed label selector set that uniquely
identifies pods of this instance (spec.md section 3, invariants). -/
def OffshootSelectors (db : Postgres) : List (String × String) :=
  OffshootLabels db

/-- Modelled from the spec: the computed WAL directory for this instance
(spec.md section 4.1 step 4), a pure function of the instance identity. -/
def WalDataDir (db : Postgres) : String := db.name ++ "/archive"

/-- Owner reference descriptor of the database object. -/
def ownerRefName (db : Postgres) : String := ResourceKindPostgres ++ "/" ++ db.name

/-! Merge helpers.  These live in client-go libraries outside the given
source file. -/

/-- Modelled from the spec: the generic upsert-by-name merge helper (spec.md
section 4.2): if an item with the same key exists, replace it in place
preserving position; otherwise append at the end. -/
def upsertByName {α : Type} (key : α → String) (l : List α) (x : α) : List α :=
  if l.any (fun y => key y = key x) then
    l.map (fun y => if key y = key x then x else y)
  else l ++ [x]

/-- Modelled from the spec: core_util.UpsertEnvVars, folding the
upsert-by-name helper over the new variables (spec.md section 4.2). -/
def UpsertEnvVars (l : List EnvVar) (news : List EnvVar) : List EnvVar :=
  news.foldl (upsertByName EnvVar.name) l

/-- Modelled from the spec: core_util.UpsertVolume (spec.md section 4.2). -/
def UpsertVolume (l : List Volume) (v : Volume) : List Volume :=
  upsertByName Volume.name l v

/-- Modelled from the spec: core_util.UpsertVolumeMount (spec.md
section 4.2). -/
def UpsertVolumeMount (l : List VolumeMount) (m : VolumeMount) : List VolumeMount :=
  upsertByName VolumeMount.name l m

/-- Modelled from the spec: core_util.UpsertContainer (spec.md
section 4.2). -/
def UpsertContainer (l : List Container) (c : Container) : List Container :=
  upsertByName Container.name l c

/-- Modelled from the spec: core_util.UpsertContainers, folding the
container upsert over the new containers (spec.md section 4.2). -/
def UpsertContainers (l : List Container) (cs : List Container) : List Container :=
  cs.foldl UpsertContainer l

/-- Modelled from the spec: core_util.UpsertVolumeClaim (spec.md
section 4.2). -/
def UpsertVolumeClaim (l : List PersistentVolumeClaimModel)
    (c : PersistentVolumeClaimModel) : List PersistentVolumeClaimModel :=
  upsertByName PersistentVolumeClaimModel.name l c

/-- Modelled from the spec: core_util.EnsureOwnerReference — every managed
resource carries an owner reference to the database instance (spec.md
section 3, invariants); adding an already-present reference is a no-op. -/
def ensureOwnerReference (refs : List String) (owner : String) : List String :=
  if refs.contains owner then refs else refs ++ [owner]

/-- Modelled from the spec: kmapi.HasCondition on the status condition
list. -/
def hasCondition (conds : List String) (c : String) : Bool := conds.contains c

/-- Modelled from the spec: app_util.CreateOrPatchStatefulSet (spec.md
section 4.3).  If the object is absent, synthesize an empty object from the
identity, apply the mutator and create it: outcome Created.  If present,
apply the mutator; if the result equals the fetched object, outcome
Unchanged and no write; otherwise outcome Patched.  The outer Option
propagates a mutator panic. -/
def CreateOrPatchStatefulSet (existing : Option StatefulSet)
    (name ns : String) (mutate : StatefulSet → Option StatefulSet) :
    Option (StatefulSet × VerbType) :=
  match existing with
  | none => (mutate { name := name, ns := ns }).map (fun s => (s, VerbType.created))
  | some o =>
    (mutate o).map (fun s =>
      if s = o then (o, VerbType.unchanged) else (s, VerbType.patched))

/-! Path handling for the Local restore backend (Go path.Join and
path.Clean, used at source line 1001 with a leading "/" element). -/

/-- Removes empty and dot components and resolves dot-dot components the way
Go path.Clean does on an absolute (rooted) path. -/
def cleanComponents (comps : List String) : List String :=
  comps.foldl
    (fun acc c =>
      if c = "" ∨ c = "." then acc
      else if c = ".." then acc.dropLast
      else acc ++ [c])
    []

/-- Go path.Join as used by walRecoveryConfig: joins the non-empty elements
with a slash separator and cleans the result; with a leading "/" element the
result is an absolute cleaned path. -/
def goPathJoin (elems : List String) : String :=
  let joined := String.intercalate ("/") (elems.filter (fun e => e ≠ ""))
  if joined = "" then ""
  else if joined.startsWith ("/") then
    "/" ++ String.intercalate ("/") (cleanComponents (joined.splitOn ("/")))
  else
    let comps := cleanComponents (joined.splitOn ("/"))
    if comps = [] then "." else String.intercalate ("/") comps

/-- Go strings.HasSuffix, modelled over the character list so that the
kernel can evaluate it. -/
def hasSuffix (s sfx : String) : Bool := sfx.data.isSuffixOf s.data

/-! Environment derivation, translated from the source. -/

/-- Restore backend selection of walRecoveryConfig (source lines 956-1008):
a first-match chain over S3, GCS, Azure, Swift, Local emitting the
backend-specific RESTORE variables. -/
def walRestoreBackendEnv (wal : PostgresWALSourceSpec) : List EnvVar :=
  match wal.s3 with
  | some s3 =>
    [{ name := "RESTORE_S3_PREFIX", value := "s3://" ++ s3.bucket ++ "/" ++ s3.pfx }]
    ++ (if s3.endpoint ≠ "" ∧ ¬ (hasSuffix s3.endpoint (".amazonaws.com")) then
          [{ name := "RESTORE_S3_ENDPOINT", value := s3.endpoint }]
        else [])
    ++ (if s3.region ≠ "" then
          [{ name := "RESTORE_S3_REGION", value := s3.region }]
        else [])
  | none =>
    match wal.gcs with
    | some gcs =>
      [{ name := "RESTORE_GS_PREFIX", value := "gs://" ++ gcs.bucket ++ "/" ++ gcs.pfx }]
    | none =>
      match wal.azure with
      | some az =>
        [{ name := "RESTORE_AZ_PREFIX", value := "azure://" ++ az.container ++ "/" ++ az.pfx }]
      | none =>
        match wal.swift with
        | some sw =>
          [{ name := "RESTORE_SWIFT_PREFIX", value := "swift://" ++ sw.container ++ "/" ++ sw.pfx }]
        | none =>
          match wal.localVol with
          | some lv =>
            [{ name := "RESTORE_FILE_PREFIX", value := goPathJoin ["/", lv.mountPath, lv.subPath] }]
          | none => []

/-- walRecoveryConfig (source lines 948-1051): RESTORE=true, the restore
backend variables, and when PITR is set PITR=true, the dereferenced
TARGET_INCLUSIVE flag and the non-empty target time, timeline and
transaction id.  The result is none exactly when the source would
nil-dereference PITR.TargetInclusive (source line 1019). -/
def walRecoveryConfig (wal : PostgresWALSourceSpec) : Option (List EnvVar) :=
  let envList := [{ name := "RESTORE", value := "true" : EnvVar }] ++ walRestoreBackendEnv wal
  match wal.pitr with
  | none => some envList
  | some p =>
    match p.targetInclusive with
    | none => none
    | some ti =>
      let envList := envList ++
        [{ name := "PITR", value := "true" },
         { name := "TARGET_INCLUSIVE", value := if ti then "true" else "false" }]
      let envList := envList ++
        (if p.targetTime ≠ "" then [{ name := "TARGET_TIME", value := p.targetTime : EnvVar }] else [])
      let envList := envList ++
        (if p.targetTimeline ≠ "" then [{ name := "TARGET_TIMELINE", value := p.targetTimeline : EnvVar }] else [])
      let envList := envList ++
        (if p.targetXID ≠ "" then [{ name := "TARGET_XID", value := p.targetXID : EnvVar }] else [])
      some envList

/-- Archive backend selection of ensureCombinedNode (source lines 491-550):
ARCHIVE=wal-g followed by a first-match chain over S3, GCS, Azure, Swift,
Local emitting the backend-specific ARCHIVE variables. -/
def storageArchiveEnv (db : Postgres) (st : Backend) : List EnvVar :=
  [{ name := "ARCHIVE", value := "wal-g" : EnvVar }]
  ++ (match st.s3 with
  | some s3 =>
    [{ name := "ARCHIVE_S3_PREFIX", value := "s3://" ++ s3.bucket ++ "/" ++ WalDataDir db }]
    ++ (if s3.endpoint ≠ "" ∧ ¬ (hasSuffix s3.endpoint (".amazonaws.com")) then
          [{ name := "ARCHIVE_S3_ENDPOINT", value := s3.endpoint }]
        else [])
    ++ (if s3.region ≠ "" then
          [{ name := "ARCHIVE_S3_REGION", value := s3.region }]
        else [])
  | none =>
    match st.gcs with
    | some gcs =>
      [{ name := "ARCHIVE_GS_PREFIX", value := "gs://" ++ gcs.bucket ++ "/" ++ WalDataDir db }]
    | none =>
      match st.azure with
      | some az =>
        [{ name := "ARCHIVE_AZ_PREFIX", value := "azure://" ++ az.container ++ "/" ++ WalDataDir db }]
      | none =>
        match st.swift with
        | some sw =>
          [{ name := "ARCHIVE_SWIFT_PREFIX", value := "swift://" ++ sw.container ++ "/" ++ WalDataDir db }]
        | none =>
          match st.localVol with
          | some lv =>
            [{ name := "ARCHIVE_FILE_PREFIX", value := lv.mountPath }]
          | none => [])

/-- Go strings.ToLower on the standby and streaming mode strings, modelled
over the character list so that the kernel can evaluate it. -/
def lowerString (s : String) : String := String.mk (s.data.map Char.toLower)

/-- Environment assembly of ensureCombinedNode (source lines 449-558):
standby and streaming modes lower-cased with their defaults, leader
election timings, the archive backend variables and the restore
variables.  The result is none exactly when walRecoveryConfig panics. -/
def ensureCombinedNodeEnv (db : Postgres) : Option (List EnvVar) :=
  let standbyMode := match db.spec.standbyMode with
    | some m => m
    | none => WarmPostgresStandbyMode
  let streamingMode := match db.spec.streamingMode with
    | some m => m
    | none => AsynchronousPostgresStreamingMode
  let envList : List EnvVar :=
    [{ name := "STANDBY", value := lowerString standbyMode },
     { name := "STREAMING", value := lowerString streamingMode }]
  let envList := envList ++
    (match db.spec.leaderElection with
    | some le =>
      [{ name := LeaseDurationEnv, value := toString le.leaseDurationSeconds },
       { name := RenewDeadlineEnv, value := toString le.renewDeadlineSeconds },
       { name := RetryPeriodEnv, value := toString le.retryPeriodSeconds }]
    | none => [])
  let envList := envList ++
    (match db.spec.archiver with
    | some ar =>
      match ar.storage with
      | some st => storageArchiveEnv db st
      | none => []
    | none => [])
  match db.spec.init with
  | some ini =>
    match ini.postgresWAL with
    | some wal => (walRecoveryConfig wal).map (fun l => envList ++ l)
    | none => some envList
  | none => some envList

/-! Service orchestration, translated from the source. -/

/-- ensureService (source lines 68-111).  The reconciliations of the
primary and the standby endpoint are passed in as their results: each is
either an error or an outcome.  The standby endpoint is only reconciled
when the replica count (defaulting to 1 when nil) exceeds 1, otherwise its
verb stays Unchanged; the two verbs are then combined: Created when both
are Created, Patched when either is Patched, otherwise Unchanged. -/
def ensureService (db : Postgres)
    (primaryResult standbyResult : Except String VerbType) :
    Except String VerbType :=
  match primaryResult with
  | Except.error e => Except.error e
  | Except.ok vt1 =>
    let replicas : Int := match db.spec.replicas with
      | some r => r
      | none => 1
    let standbyStep : Except String VerbType :=
      if replicas > 1 then standbyResult else Except.ok VerbType.unchanged
    match standbyStep with
    | Except.error e => Except.error e
    | Except.ok vt2 =>
      if vt1 = VerbType.created ∧ vt2 = VerbType.created then
        Except.ok VerbType.created
      else if vt1 = VerbType.patched ∨ vt2 = VerbType.patched then
        Except.ok VerbType.patched
      else Except.ok VerbType.unchanged

/-- ensureStatsService (source lines 201-241).  When monitoring is nil or
its vendor is not the Prometheus exporter vendor, the function logs, skips
reconciliation and returns Unchanged with no error.  Otherwise the stats
service is reconciled; the result of that client call is passed in.  The
boolean records whether a reconciliation was attempted. -/
def ensureStatsService (db : Postgres)
    (reconcileResult : Except String VerbType) :
    VerbType × Option String × Bool :=
  match db.spec.monitor with
  | none => (VerbType.unchanged, none, false)
  | some m =>
    if m.agentVendor ≠ VendorPrometheus then (VerbType.unchanged, none, false)
    else
      match reconcileResult with
      | Except.error e => (VerbType.unchanged, some e, true)
      | Except.ok vt => (vt, none, true)

/-! StatefulSet assembly, translated from the source. -/

/-- True when the list holds a container named postgres. -/
def hasPG (l : List Container) : Bool :=
  l.any (fun c => c.name = ResourceSingularPostgres)

/-- Applies a function to the first container named postgres, the way the
source loops over containers and returns after the first match. -/
def modifyFirstPG (l : List Container) (f : Container → Container) : List Container :=
  match l with
  | [] => []
  | c :: cs =>
    if c.name = ResourceSingularPostgres then f c :: cs
    else c :: modifyFirstPG cs f

/-- Upserts a volume mount onto the first container named postgres: the
loop body shared by the upsert helpers of the source. -/
def addPGMount (l : List Container) (m : VolumeMount) : List Container :=
  modifyFirstPG l (fun c => { c with volumeMounts := UpsertVolumeMount c.volumeMounts m })

/-- The fixed environment list of upsertEnv (source lines 584-619):
namespace field reference, primary host, and the credential pair resolved
from the referenced auth secret. -/
def upsertEnvFixedList (db : Postgres) : List EnvVar :=
  [{ name := "NAMESPACE", valueFrom := some (EnvVarSource.fieldRef ("metadata.namespace")) },
   { name := "PRIMARY_HOST", value := ServiceName db },
   { name := EnvPostgresUser,
     valueFrom := some (EnvVarSource.secretKeyRef db.spec.authSecretName BasicAuthUsernameKey) },
   { name := EnvPostgresPassword,
     valueFrom := some (EnvVarSource.secretKeyRef db.spec.authSecretName BasicAuthPasswordKey) }]

/-- upsertEnv (source lines 583-632): upserts the fixed environment list
followed by the derived variables into the postgres container. -/
def upsertEnv (sts : StatefulSet) (db : Postgres) (envs : List EnvVar) : StatefulSet :=
  let envList := upsertEnvFixedList db ++ envs
  { sts with
    spec.template.spec.containers :=
      modifyFirstPG sts.spec.template.spec.containers
        (fun c => { c with env := UpsertEnvVars c.env envList }) }

/-- upsertUserEnv (source lines 635-643): upserts the user-declared
environment overrides into the postgres container, applied after
upsertEnv so they win name collisions. -/
def upsertUserEnv (sts : StatefulSet) (db : Postgres) : StatefulSet :=
  { sts with
    spec.template.spec.containers :=
      modifyFirstPG sts.spec.template.spec.containers
        (fun c => { c with env := UpsertEnvVars c.env db.spec.podTemplate.env }) }

/-- upsertMonitoringContainer (source lines 645-709): when the monitoring
vendor is the Prometheus exporter vendor, upserts the exporter container
with its data-source and listen-address environment. -/
def upsertMonitoringContainer (sts : StatefulSet) (db : Postgres)
    (ver : PostgresVersionModel) : StatefulSet :=
  match db.spec.monitor with
  | some m =>
    if m.agentVendor = VendorPrometheus then
      let container : Container :=
        { name := "exporter",
          args := ["--log.level=info"] ++ m.exporterArgs,
          image := ver.exporterImage,
          imagePullPolicy := "IfNotPresent",
          ports := [{ name := PrometheusExporterPortName, protocol := "TCP",
                      containerPort := m.exporterPort }],
          env := m.exporterEnv,
          resources := m.exporterResources,
          securityContext := m.exporterSecurityContext }
      let envList : List EnvVar :=
        [{ name := "DATA_SOURCE_URI",
           value := "localhost:" ++ toString PostgresDatabasePort ++ "/?sslmode=disable" },
         { name := "DATA_SOURCE_USER",
           valueFrom := some (EnvVarSource.secretKeyRef db.spec.authSecretName BasicAuthUsernameKey) },
         { name := "DATA_SOURCE_PASS",
           valueFrom := some (EnvVarSource.secretKeyRef db.spec.authSecretName BasicAuthPasswordKey) },
         { name := "PG_EXPORTER_WEB_LISTEN_ADDRESS",
           value := ":" ++ toString m.exporterPort },
         { name := "PG_EXPORTER_WEB_TELEMETRY_PATH",
           value := StatsServicePath db }]
      let container := { container with env := UpsertEnvVars container.env envList }
      { sts with
        spec.template.spec.containers :=
          UpsertContainer sts.spec.template.spec.containers container }
    else sts
  | none => sts

/-- upsertArchiveSecret (source lines 711-737): mounts the archive
credentials secret into the postgres container. -/
def upsertArchiveSecret (sts : StatefulSet) (secretName : String) : StatefulSet :=
  if hasPG sts.spec.template.spec.containers then
    { sts with
      spec.template.spec.containers :=
        addPGMount sts.spec.template.spec.containers
          { name := "wal-g-archive", mountPath := "/srv/wal-g/archive/secrets" },
      spec.template.spec.volumes :=
        UpsertVolume sts.spec.template.spec.volumes
          ({ name := "wal-g-archive", volumeSource := VolumeSource.secret secretName }) }
  else sts

/-- upsertInitWalSecret (source lines 739-765): mounts the restore
credentials secret into the postgres container. -/
def upsertInitWalSecret (sts : StatefulSet) (secretName : String) : StatefulSet :=
  if hasPG sts.spec.template.spec.containers then
    { sts with
      spec.template.spec.containers :=
        addPGMount sts.spec.template.spec.containers
          { name := "wal-g-restore", mountPath := "/srv/wal-g/restore/secrets" },
      spec.template.spec.volumes :=
        UpsertVolume sts.spec.template.spec.volumes
          ({ name := "wal-g-restore", volumeSource := VolumeSource.secret secretName }) }
  else sts

/-- upsertShm (source lines 767-793): mounts an in-memory emptyDir at
/dev/shm into the postgres container. -/
def upsertShm (sts : StatefulSet) : StatefulSet :=
  if hasPG sts.spec.template.spec.containers then
    { sts with
      spec.template.spec.containers :=
        addPGMount sts.spec.template.spec.containers
          { name := "shared-memory", mountPath := "/dev/shm" },
      spec.template.spec.volumes :=
        UpsertVolume sts.spec.template.spec.volumes
          ({ name := "shared-memory", volumeSource := VolumeSource.emptyDir ("Memory") none }) }
  else sts

/-- upsertInitScript (source lines 795-817): mounts the init script volume
at /var/initdb into the postgres container. -/
def upsertInitScript (sts : StatefulSet) (script : VolumeSource) : StatefulSet :=
  if hasPG sts.spec.template.spec.containers then
    { sts with
      spec.template.spec.containers :=
        addPGMount sts.spec.template.spec.containers
          { name := "initial-script", mountPath := "/var/initdb" },
      spec.template.spec.volumes :=
        UpsertVolume sts.spec.template.spec.volumes
          ({ name := "initial-script", volumeSource := script }) }
  else sts

/-- Appends a local-backend volume and its containers[0] mount with a plain
append, not an upsert, the way upsertDataVolume does for the local-archive
and local-init volumes (source lines 828-839 and 848-859); panics (none)
when the container list is empty. -/
def appendLocalVolume (sts : StatefulSet) (volName : String) (lv : LocalSpec) :
    Option StatefulSet :=
  match sts.spec.template.spec.containers with
  | [] => none
  | c0 :: cs =>
    some { sts with
      spec.template.spec.volumes :=
        sts.spec.template.spec.volumes ++
          [{ name := volName, volumeSource := lv.volumeSource }],
      spec.template.spec.containers :=
        { c0 with volumeMounts :=
          c0.volumeMounts ++
            [{ name := volName, mountPath := lv.mountPath }] } :: cs }

/-- The local-archive addition of upsertDataVolume (source lines 822-841). -/
def localArchiveStep (sts : StatefulSet) (db : Postgres) : Option StatefulSet :=
  match db.spec.archiver with
  | some ar =>
    match ar.storage with
    | some st =>
      match st.localVol with
      | some lv => appendLocalVolume sts ("local-archive") lv
      | none => some sts
    | none => some sts
  | none => some sts

/-- The local-init addition of upsertDataVolume (source lines 842-861). -/
def localInitStep (sts : StatefulSet) (db : Postgres) : Option StatefulSet :=
  match db.spec.init with
  | some ini =>
    match ini.postgresWAL with
    | some wal =>
      match wal.localVol with
      | some lv => appendLocalVolume sts ("local-init") lv
      | none => some sts
    | none => some sts
  | none => some sts

/-- The local-volume half of upsertDataVolume (source lines 820-862).  With
a Local archive backend the local-archive volume and its mount, and with a
Local restore source the local-init volume and its mount, are added with a
plain append, not an upsert. -/
def localVolumesPart (sts : StatefulSet) (db : Postgres) : Option StatefulSet :=
  if db.spec.archiver.isSome ∨ db.spec.init.isSome then
    (localArchiveStep sts db).bind (fun s => localInitStep s db)
  else some sts

/-- The data-volume half of upsertDataVolume (source lines 864-913): on the
postgres container, upsert the data mount; in ephemeral storage mode upsert
an emptyDir data volume carrying the requested size as limit; otherwise
dereference the storage claim spec (none on nil: panic), default empty
access modes to ReadWriteOnce in place on the database spec, and upsert the
volume claim template named data. -/
def dataVolumeClaimStep (sts : StatefulSet) (db : Postgres) :
    Option (StatefulSet × Postgres) :=
  if hasPG sts.spec.template.spec.containers then
    let sts1 :=
      { sts with
        spec.template.spec.containers :=
          addPGMount sts.spec.template.spec.containers
            { name := "data", mountPath := "/var/pv" } }
    if db.spec.storageType = StorageTypeEphemeral then
      let sizeLimit := match db.spec.storage with
        | some pvc => pvc.requestsStorage
        | none => none
      some ({ sts1 with
        spec.template.spec.volumes :=
          UpsertVolume sts1.spec.template.spec.volumes
            ({ name := "data", volumeSource := VolumeSource.emptyDir ("") sizeLimit }) }, db)
    else
      match db.spec.storage with
      | none => none
      | some pvc =>
        let pvc :=
          if pvc.accessModes = [] then { pvc with accessModes := [ReadWriteOnce] }
          else pvc
        let db := { db with spec.storage := some pvc }
        let claim : PersistentVolumeClaimModel :=
          { name := "data",
            annotations := match pvc.storageClassName with
              | some sc => [("volume.beta.kubernetes.io/storage-class", sc)]
              | none => [],
            spec := pvc }
        some ({ sts1 with
          spec.volumeClaimTemplates :=
            UpsertVolumeClaim sts1.spec.volumeClaimTemplates claim }, db)
  else some (sts, db)

/-- upsertDataVolume (source lines 819-915): the local-volume additions
followed by the data volume or volume claim template.  Because the source
mutates the database spec storage in place when defaulting access modes,
the possibly-updated database object is returned alongside. -/
def upsertDataVolume (sts : StatefulSet) (db : Postgres) :
    Option (StatefulSet × Postgres) :=
  (localVolumesPart sts db).bind (fun s => dataVolumeClaimStep s db)

/-- upsertCustomConfig (source lines 917-946): when a custom config secret
is set, mounts it at /etc/config into the postgres container. -/
def upsertCustomConfig (sts : StatefulSet) (db : Postgres) : StatefulSet :=
  match db.spec.configSecret with
  | some secretName =>
    if hasPG sts.spec.template.spec.containers then
      { sts with
        spec.template.spec.containers :=
          addPGMount sts.spec.template.spec.containers
            { name := "custom-config", mountPath := "/etc/config" },
        spec.template.spec.volumes :=
          UpsertVolume sts.spec.template.spec.volumes
            ({ name := "custom-config", volumeSource := VolumeSource.secret secretName }) }
    else sts
  | none => sts

/-- The postgres container upserted by the mutator (source lines 326-358). -/
def postgresContainerBase (c : ControllerModel) (db : Postgres)
    (ver : PostgresVersionModel) : Container :=
  { name := ResourceSingularPostgres,
    args := ["leader_election",
             "--enable-analytics=" ++ (if c.enableAnalytics then "true" else "false")]
            ++ c.loggerFlags,
    env := [{ name := AnalyticsKey, value := c.analyticsClientID }],
    image := ver.dbImage,
    ports := [{ name := PostgresDatabasePortName,
                containerPort := PostgresDatabasePort, protocol := "TCP" }],
    resources := db.spec.podTemplate.resources,
    livenessProbe := db.spec.podTemplate.livenessProbe,
    readinessProbe := db.spec.podTemplate.readinessProbe,
    lifecycle := db.spec.podTemplate.lifecycle,
    securityContext := some { privileged := some false,
                              capabilitiesAdd := ["IPC_LOCK", "SYS_RESOURCE"] } }

/-- The CreateOrPatchStatefulSet mutator closure of ensureStatefulSet
(source lines 312-405), in source order: metadata, replicas, service name,
selector, template metadata, init containers, the postgres container, the
environment upserts, scheduling fields, the monitoring container, the
archive and restore secret volumes, the shared-memory, data and
custom-config volumes, service account and the OnDelete update strategy.
The result is none when upsertDataVolume panics. -/
def statefulSetMutator (c : ControllerModel) (db : Postgres)
    (ver : PostgresVersionModel) (envList : List EnvVar)
    (input : StatefulSet) : Option StatefulSet :=
  let replicas : Int := match db.spec.replicas with
    | some r => r
    | none => 1
  let s := { input with
    labels := OffshootLabels db,
    annotations := db.spec.podTemplate.controllerAnnotations,
    ownerReferences := ensureOwnerReference input.ownerReferences (ownerRefName db) }
  let s := { s with
    spec.replicas := some replicas,
    spec.serviceName := GoverningServiceName db,
    spec.selectorMatchLabels := some (OffshootSelectors db) }
  let s := { s with
    spec.template.labels := OffshootSelectors db,
    spec.template.annotations := db.spec.podTemplate.annotations }
  let s := { s with
    spec.template.spec.initContainers :=
      UpsertContainers s.spec.template.spec.initContainers
        db.spec.podTemplate.initContainers }
  let s := { s with
    spec.template.spec.containers :=
      UpsertContainer s.spec.template.spec.containers
        (postgresContainerBase c db ver) }
  let s := upsertEnv s db envList
  let s := upsertUserEnv s db
  let s := { s with
    spec.template.spec.nodeSelector := db.spec.podTemplate.nodeSelector,
    spec.template.spec.affinity := db.spec.podTemplate.affinity }
  let s :=
    if db.spec.podTemplate.schedulerName ≠ "" then
      { s with spec.template.spec.schedulerName := db.spec.podTemplate.schedulerName }
    else s
  let s := { s with
    spec.template.spec.tolerations := db.spec.podTemplate.tolerations,
    spec.template.spec.imagePullSecrets := db.spec.podTemplate.imagePullSecrets,
    spec.template.spec.priorityClassName := db.spec.podTemplate.priorityClassName,
    spec.template.spec.priority := db.spec.podTemplate.priority,
    spec.template.spec.securityContext := db.spec.podTemplate.securityContext }
  let s := upsertMonitoringContainer s db ver
  let s := match db.spec.archiver with
    | some ar =>
      match ar.storage with
      | some st =>
        if st.localVol.isNone then upsertArchiveSecret s st.storageSecretName else s
      | none => s
    | none => s
  let s :=
    if ¬ hasCondition db.statusConditions DatabaseDataRestored then
      let s := match db.spec.init with
        | some ini =>
          match ini.postgresWAL with
          | some wal =>
            if wal.localVol.isNone then upsertInitWalSecret s wal.storageSecretName else s
          | none => s
        | none => s
      let s := match db.spec.init with
        | some ini =>
          match ini.script with
          | some sc => upsertInitScript s sc.volumeSource
          | none => s
        | none => s
      s
    else s
  let s := upsertShm s
  match upsertDataVolume s db with
  | none => none
  | some (s, db2) =>
    let s := upsertCustomConfig s db2
    let s := { s with
      spec.template.spec.serviceAccountName := db2.spec.podTemplate.serviceAccountName,
      spec.updateStrategyType := "OnDelete" }
    some s

/-! Workload reconciliation, translated from the source. -/

/-- Result of the client Get used by checkStatefulSet: the object, a
NotFound result, or another client error. -/
inductive GetResult where
  | found (sts : StatefulSet)
  | notFound
  | getErr (msg : String)
deriving DecidableEq, Repr

/-- Go map lookup on a label set, returning the empty string when the key
is absent. -/
def labelValue (labels : List (String × String)) (k : String) : String :=
  match labels.find? (fun p => p.1 = k) with
  | some p => p.2
  | none => ""

/-- checkStatefulSet (source lines 563-581): NotFound passes, another Get
error propagates, and a found object whose labels do not carry both the
database kind and the database name yields a naming-collision error. -/
def checkStatefulSet (db : Postgres) (g : GetResult) : Option String :=
  match g with
  | GetResult.notFound => none
  | GetResult.getErr e => some e
  | GetResult.found s =>
    if labelValue s.labels LabelDatabaseKind ≠ ResourceKindPostgres ∨
       labelValue s.labels LabelDatabaseName ≠ OffshootName db then
      some ("intended statefulSet \"" ++ db.ns ++ "/" ++ OffshootName db ++ "\" already exists")
    else none

/-- ensureStatefulSet (source lines 286-433) up to the create-or-patch
call: a failing pre-check returns Unchanged with the error and the stored
object untouched; otherwise the mutator is applied through
CreateOrPatchStatefulSet.  The result triple is the verb, the error and the
stored object after the call; the outer Option propagates a mutator
panic. -/
def ensureStatefulSet (c : ControllerModel) (db : Postgres)
    (ver : PostgresVersionModel) (envList : List EnvVar)
    (g : GetResult) (existing : Option StatefulSet) :
    Option (VerbType × Option String × Option StatefulSet) :=
  match checkStatefulSet db g with
  | some e => some (VerbType.unchanged, some e, existing)
  | none =>
    (CreateOrPatchStatefulSet existing (OffshootName db) db.ns
      (statefulSetMutator c db ver envList)).map
      (fun p => (p.2, none, some p.1))

/-- ensureCombinedNode (source lines 449-561): derives the environment and
runs ensureStatefulSet with it. -/
def ensureCombinedNode (c : ControllerModel) (db : Postgres)
    (ver : PostgresVersionModel) (g : GetResult)
    (existing : Option StatefulSet) :
    Option (VerbType × Option String × Option StatefulSet) :=
  match ensureCombinedNodeEnv db with
  | none => none
  | some envList => ensureStatefulSet c db ver envList g existing

/-! Observation helpers and concrete instances used by the theorems. -/

/-- The names of an environment variable list, in order. -/
def namesOf (env : List EnvVar) : List String := env.map EnvVar.name

/-- The names of an environment variable list that belong to a given pool,
in order. -/
def selectNames (pool : List String) (env : List EnvVar) : List String :=
  (namesOf env).filter (fun n => n ∈ pool)

/-- The five backend-specific archive path variables. -/
def archivePrefixVarNames : List String :=
  ["ARCHIVE_S3_PREFIX", "ARCHIVE_GS_PREFIX", "ARCHIVE_AZ_PREFIX",
   "ARCHIVE_SWIFT_PREFIX", "ARCHIVE_FILE_PREFIX"]

/-- The five backend-specific restore path variables. -/
def restorePrefixVarNames : List String :=
  ["RESTORE_S3_PREFIX", "RESTORE_GS_PREFIX", "RESTORE_AZ_PREFIX",
   "RESTORE_SWIFT_PREFIX", "RESTORE_FILE_PREFIX"]

/-- Find by key in a keyed collection. -/
def findByName {α : Type} (key : α → String) (l : List α) (k : String) : Option α :=
  l.find? (fun x => key x = k)

/-- Concrete Local archive backend reference used by c1db. -/
def c1local : LocalSpec :=
  { mountPath := "/walarchive", volumeSource := VolumeSource.other ("hostPath") }

/-- Concrete database spec with a Local archive backend, ephemeral storage
and otherwise default fields, used to evaluate the mutator pipeline. -/
def c1db : Postgres :=
  { name := "demo", ns := "ns",
    spec := { archiver := some { storage := some { localVol := some c1local } },
              storageType := StorageTypeEphemeral,
              authSecretName := "demo-auth" } }

/-- The full mutator of ensureStatefulSet for c1db, with the environment
derived by ensureCombinedNode. -/
def c1mut : StatefulSet → Option StatefulSet :=
  statefulSetMutator {} c1db { dbImage := "pg:11" } ((ensureCombinedNodeEnv c1db).getD [])

/-- The object created on the first reconciliation of c1db: the mutator
applied to the freshly synthesized empty object. -/
def c1sts1 : StatefulSet := (c1mut { name := "demo", ns := "ns" }).getD {}

/-- Concrete PITR target with an inclusive flag, a target time and empty
timeline and transaction id. -/
def c6pitr : PITRSpec :=
  { targetInclusive := some true, targetTime := "2024-01-01T00:00:00Z" }

/-- Concrete restore WAL source whose single backend is S3 with a non-empty
region, plus the c6pitr target. -/
def c6wal : PostgresWALSourceSpec :=
  { s3 := some { bucket := "b", pfx := "p", region := "us-east-1" },
    pitr := some c6pitr }

/-- Concrete StatefulSet holding one postgres container, used to evaluate
upsertDataVolume. -/
def c10sts : StatefulSet :=
  { spec := { template := { spec := { containers := [{ name := "postgres" }] } } } }

/-- Concrete database spec with durable storage whose claim spec has empty
access modes. -/
def c10db : Postgres :=
  { name := "demo",
    spec := { storageType := "Durable",
              storage := some { requestsStorage := some "1Gi" } } }

/-- The evaluation of upsertDataVolume on c10sts and c10db. -/
def c10res : StatefulSet × Postgres := (upsertDataVolume c10sts c10db).getD ({}, {})

/-! Theorems. -/

/-- Claim C1.  The claim states that the full derive-and-merge mutator
pipeline of ensureStatefulSet is idempotent: re-applying it with an
identical spec yields Outcome=Unchanged and a byte-identical object.  The
code contradicts this: upsertDataVolume adds the local-archive volume with
a plain append instead of an upsert (source line 832), so for a spec with a
Local archive backend the first reconciliation creates the object, and
re-applying the same mutator to that object appends a second local-archive
volume: the result is not byte-identical and the outcome is Patched, not
Unchanged. -/
theorem claim_c1_local_archive_breaks_idempotence :
    CreateOrPatchStatefulSet none ("demo") ("ns") c1mut = some (c1sts1, VerbType.created) ∧
    (CreateOrPatchStatefulSet (some c1sts1) ("demo") ("ns") c1mut).map Prod.snd =
      some VerbType.patched ∧
    c1mut c1sts1 ≠ some c1sts1 ∧
    (c1mut c1sts1).map
        (fun s => (s.spec.template.spec.volumes.filter (fun v => v.name = "local-archive")).length) =
      some 2 := by
  decide

/-- Claim C2.  For every pair of per-service outcomes obtained without
error, when the replica count makes the standby reconcile run,
ensureService returns the combined outcome: Created if both are Created,
Patched if either is Patched, Unchanged otherwise. -/
theorem claim_c2_outcome_combination (db : Postgres) (r : Int) (vt1 vt2 : VerbType)
    (hrep : db.spec.replicas = some r) (hgt : r > 1) :
    ensureService db (Except.ok vt1) (Except.ok vt2) =
      Except.ok
        (if vt1 = VerbType.created ∧ vt2 = VerbType.created then VerbType.created
         else if vt1 = VerbType.patched ∨ vt2 = VerbType.patched then VerbType.patched
         else VerbType.unchanged) := by
  simp only [ensureService, hrep, hgt, if_pos]
  split_ifs <;> rfl

/-- Witness for claim C2 at replicas 3, primary Created, standby Patched. -/
theorem claim_c2_witness :
    ensureService { name := "d", spec := { replicas := some 3 } }
      (Except.ok VerbType.created) (Except.ok VerbType.patched) =
      Except.ok VerbType.patched := by
  have h := claim_c2_outcome_combination
    { name := "d", spec := { replicas := some 3 } } 3 VerbType.created VerbType.patched
    rfl (by decide)
  simpa using h

/-- Counterexample for claim C3.  The claim states that with replica count
one (or nil) the returned outcome reflects only the primary service, a
newly created primary yielding Created.  In the code the standby verb stays
Unchanged when no standby is reconciled and the combination rule returns
Created only when both verbs are Created, so a newly created primary with
one replica yields Unchanged, not Created. -/
theorem claim_c3_counterexample :
    ensureService { name := "d", spec := { replicas := some 1 } }
        (Except.ok VerbType.created) (Except.ok VerbType.created) =
      Except.ok VerbType.unchanged ∧
    ensureService { name := "d" }
        (Except.ok VerbType.created) (Except.ok VerbType.created) =
      Except.ok VerbType.unchanged ∧
    ensureService { name := "d", spec := { replicas := some 1 } }
        (Except.ok VerbType.created) (Except.ok VerbType.created) ≠
      Except.ok VerbType.created := by
  decide

/-- Claim C3 as amended.  With replica count nil or one the standby service
is not reconciled (the result ignores the standby reconcile entirely) and
the outcome is Patched when the primary was Patched and Unchanged
otherwise — in particular a newly created primary yields Unchanged; with a
replica count above one (such as three) both services are reconciled and
two newly created services combine to Created. -/
theorem claim_c3_standby_gating :
    (∀ (db : Postgres) (vt1 : VerbType) (standbyResult : Except String VerbType),
      db.spec.replicas = none ∨ db.spec.replicas = some 1 →
      ensureService db (Except.ok vt1) standbyResult =
        Except.ok (if vt1 = VerbType.patched then VerbType.patched else VerbType.unchanged)) ∧
    (∀ (db : Postgres) (r : Int), db.spec.replicas = some r → r > 1 →
      ensureService db (Except.ok VerbType.created) (Except.ok VerbType.created) =
        Except.ok VerbType.created) := by
  constructor
  · intro db vt1 sb h
    rcases h with h | h <;> cases vt1 <;> simp [ensureService, h]
  · intro db r h hr
    simp [ensureService, h, hr]

/-- Witness for the amended claim C3 at replicas one and replicas three. -/
theorem claim_c3_witness :
    ensureService { name := "d", spec := { replicas := some 1 } }
        (Except.ok VerbType.created) (Except.ok VerbType.created) =
      Except.ok VerbType.unchanged ∧
    ensureService { name := "d", spec := { replicas := some 3 } }
        (Except.ok VerbType.created) (Except.ok VerbType.created) =
      Except.ok VerbType.created := by
  constructor
  · have h := claim_c3_standby_gating.1
      { name := "d", spec := { replicas := some 1 } } VerbType.created
      (Except.ok VerbType.created) (Or.inr rfl)
    simpa using h
  · exact claim_c3_standby_gating.2
      { name := "d", spec := { replicas := some 3 } } 3 rfl (by decide)

/-- Claim C8.  When the monitoring configuration is nil or its vendor is
not the Prometheus exporter vendor, ensureStatsService performs no
reconciliation (the attempted flag is false and the reconcile result is
ignored) and returns Unchanged with no error. -/
theorem claim_c8_stats_soft_skip (db : Postgres) (r : Except String VerbType)
    (h : ∀ m, db.spec.monitor = some m → m.agentVendor ≠ VendorPrometheus) :
    ensureStatsService db r = (VerbType.unchanged, none, false) := by
  cases hm : db.spec.monitor with
  | none => simp [ensureStatsService, hm]
  | some m => simp [ensureStatsService, hm, h m hm]

/-- Witness for claim C8 with an unsupported monitoring vendor and a
reconcile result that would have been Created. -/
theorem claim_c8_witness :
    ensureStatsService
        { name := "d", spec := { monitor := some { agentVendor := "datadog.com" } } }
        (Except.ok VerbType.created) =
      (VerbType.unchanged, none, false) := by
  apply claim_c8_stats_soft_skip
  intro m hm
  simp only [Option.some.injEq] at hm
  subst hm
  decide

/-- Claim C9.  With a PITR target present, walRecoveryConfig dereferences
TargetInclusive unconditionally: the run panics (result none) exactly when
the TargetInclusive pointer is nil, and with the pointer set the result
holds the TARGET_INCLUSIVE variable rather than omitting it. -/
theorem claim_c9_pitr_deref (wal : PostgresWALSourceSpec) (p : PITRSpec)
    (h : wal.pitr = some p) :
    (walRecoveryConfig wal = none ↔ p.targetInclusive = none) ∧
    (∀ ti : Bool, p.targetInclusive = some ti →
      walRecoveryConfig wal ≠ none ∧
      ({ name := "TARGET_INCLUSIVE", value := if ti then "true" else "false" } : EnvVar) ∈
        (walRecoveryConfig wal).getD []) := by
  cases hti : p.targetInclusive with
  | none =>
    refine ⟨by simp [walRecoveryConfig, h, hti], ?_⟩
    intro ti hsome
    exact absurd hsome (by simp)
  | some ti0 =>
    refine ⟨by simp [walRecoveryConfig, h, hti], ?_⟩
    intro ti hsome
    obtain rfl : ti0 = ti := Option.some.inj hsome
    constructor
    · simp [walRecoveryConfig, h, hti]
    · simp [walRecoveryConfig, h, hti]

/-- Witness for claim C9: a nil TargetInclusive pointer panics, a set
pointer emits the variable. -/
theorem claim_c9_witness :
    walRecoveryConfig { pitr := some { targetInclusive := none } } = none ∧
    ({ name := "TARGET_INCLUSIVE", value := "true" } : EnvVar) ∈
      (walRecoveryConfig { pitr := some { targetInclusive := some true } }).getD [] := by
  constructor
  · exact (claim_c9_pitr_deref { pitr := some { targetInclusive := none } }
      { targetInclusive := none } rfl).1.mpr rfl
  · have h := (claim_c9_pitr_deref { pitr := some { targetInclusive := some true } }
      { targetInclusive := some true } rfl).2 true rfl
    simpa using h.2

/-- Finding the upserted item by its key succeeds: the upsert-by-name
helper either replaced it in place or appended it. -/
theorem findByName_upsertByName {α : Type} (key : α → String) (l : List α) (x : α)
    (k : String) (hk : key x = k) :
    findByName key (upsertByName key l x) k = some x := by
  subst hk
  unfold findByName upsertByName
  by_cases h : l.any (fun y => key y = key x)
  · rw [if_pos h]
    revert h
    induction l with
    | nil => intro h; simp at h
    | cons a as ih =>
      intro h
      simp only [List.map_cons, List.find?_cons]
      by_cases ha : key a = key x
      · simp [ha]
      · rw [if_neg ha]
        simp only [decide_eq_true_eq, ha, decide_False]
        apply ih
        simp only [List.any_cons, Bool.or_eq_true, decide_eq_true_eq] at h
        rcases h with h | h
        · exact absurd h ha
        · exact h
  · rw [if_neg h]
    revert h
    induction l with
    | nil => intro _; simp [List.find?]
    | cons a as ih =>
      intro h
      simp only [List.any_cons, Bool.or_eq_true, decide_eq_true_eq, not_or] at h
      simp only [List.cons_append, List.find?_cons, decide_eq_true_eq, h.1, decide_False]
      apply ih
      simp only [List.any_eq_true, decide_eq_true_eq, not_exists]
      intro y hy
      have := h.2
      simp only [List.any_eq_true, decide_eq_true_eq, not_exists] at this
      exact this y hy

/-- The plain-append local volume addition leaves the volume claim
templates untouched and preserves the presence of the postgres
container. -/
theorem appendLocalVolume_preserves (sts : StatefulSet) (vn : String) (lv : LocalSpec)
    (s : StatefulSet) (h : appendLocalVolume sts vn lv = some s) :
    s.spec.volumeClaimTemplates = sts.spec.volumeClaimTemplates ∧
    hasPG s.spec.template.spec.containers = hasPG sts.spec.template.spec.containers := by
  unfold appendLocalVolume at h
  cases hc : sts.spec.template.spec.containers with
  | nil => rw [hc] at h; exact absurd h (by simp)
  | cons c0 cs =>
    rw [hc] at h
    obtain rfl := Option.some.inj h
    refine ⟨rfl, ?_⟩
    simp [hasPG, hc]

/-- The local-archive addition leaves the volume claim templates untouched
and preserves the presence of the postgres container. -/
theorem localArchiveStep_preserves (sts : StatefulSet) (db : Postgres)
    (s : StatefulSet) (h : localArchiveStep sts db = some s) :
    s.spec.volumeClaimTemplates = sts.spec.volumeClaimTemplates ∧
    hasPG s.spec.template.spec.containers = hasPG sts.spec.template.spec.containers := by
  unfold localArchiveStep at h
  cases ha : db.spec.archiver with
  | none => simp only [ha] at h; obtain rfl := Option.some.inj h; exact ⟨rfl, rfl⟩
  | some ar =>
    simp only [ha] at h
    cases hs : ar.storage with
    | none => simp only [hs] at h; obtain rfl := Option.some.inj h; exact ⟨rfl, rfl⟩
    | some st =>
      simp only [hs] at h
      cases hl : st.localVol with
      | none => simp only [hl] at h; obtain rfl := Option.some.inj h; exact ⟨rfl, rfl⟩
      | some lv =>
        simp only [hl] at h
        exact appendLocalVolume_preserves sts _ lv s h

/-- The local-init addition leaves the volume claim templates untouched
and preserves the presence of the postgres container. -/
theorem localInitStep_preserves (sts : StatefulSet) (db : Postgres)
    (s : StatefulSet) (h : localInitStep sts db = some s) :
    s.spec.volumeClaimTemplates = sts.spec.volumeClaimTemplates ∧
    hasPG s.spec.template.spec.containers = hasPG sts.spec.template.spec.containers := by
  unfold localInitStep at h
  cases ha : db.spec.init with
  | none => simp only [ha] at h; obtain rfl := Option.some.inj h; exact ⟨rfl, rfl⟩
  | some ini =>
    simp only [ha] at h
    cases hs : ini.postgresWAL with
    | none => simp only [hs] at h; obtain rfl := Option.some.inj h; exact ⟨rfl, rfl⟩
    | some wal =>
      simp only [hs] at h
      cases hl : wal.localVol with
      | none => simp only [hl] at h; obtain rfl := Option.some.inj h; exact ⟨rfl, rfl⟩
      | some lv =>
        simp only [hl] at h
        exact appendLocalVolume_preserves sts _ lv s h

/-- The local-volume half of upsertDataVolume leaves the volume claim
templates untouched and preserves the presence of the postgres
container. -/
theorem localVolumesPart_preserves (sts : StatefulSet) (db : Postgres)
    (s : StatefulSet) (h : localVolumesPart sts db = some s) :
    s.spec.volumeClaimTemplates = sts.spec.volumeClaimTemplates ∧
    hasPG s.spec.template.spec.containers = hasPG sts.spec.template.spec.containers := by
  unfold localVolumesPart at h
  split at h
  · rw [Option.bind_eq_some] at h
    obtain ⟨mid, h1, h2⟩ := h
    have p1 := localArchiveStep_preserves sts db mid h1
    have p2 := localInitStep_preserves mid db s h2
    exact ⟨p2.1.trans p1.1, p2.2.trans p1.2⟩
  · obtain rfl := Option.some.inj h
    exact ⟨rfl, rfl⟩

/-- Claim C4.  Backend selection for both the archive storage of
ensureCombinedNode and the restore WAL source of walRecoveryConfig is a
first-match chain in the fixed priority order S3, GCS, Azure, Swift,
Local: in every case exactly the one prefix variable of the first
populated backend is emitted, even when several backend fields are
populated; in particular with both S3 and GCS set the environment holds
ARCHIVE_S3_PREFIX and never ARCHIVE_GS_PREFIX. -/
theorem claim_c4_first_match (db : Postgres) (st : Backend) (wal : PostgresWALSourceSpec) :
    ((∀ v, st.s3 = some v →
      selectNames archivePrefixVarNames (storageArchiveEnv db st) = ["ARCHIVE_S3_PREFIX"]) ∧
     (st.s3 = none → ∀ v, st.gcs = some v →
      selectNames archivePrefixVarNames (storageArchiveEnv db st) = ["ARCHIVE_GS_PREFIX"]) ∧
     (st.s3 = none → st.gcs = none → ∀ v, st.azure = some v →
      selectNames archivePrefixVarNames (storageArchiveEnv db st) = ["ARCHIVE_AZ_PREFIX"]) ∧
     (st.s3 = none → st.gcs = none → st.azure = none → ∀ v, st.swift = some v →
      selectNames archivePrefixVarNames (storageArchiveEnv db st) = ["ARCHIVE_SWIFT_PREFIX"]) ∧
     (st.s3 = none → st.gcs = none → st.azure = none → st.swift = none →
      ∀ v, st.localVol = some v →
      selectNames archivePrefixVarNames (storageArchiveEnv db st) = ["ARCHIVE_FILE_PREFIX"])) ∧
    ((∀ v, wal.s3 = some v →
      selectNames restorePrefixVarNames (walRestoreBackendEnv wal) = ["RESTORE_S3_PREFIX"]) ∧
     (wal.s3 = none → ∀ v, wal.gcs = some v →
      selectNames restorePrefixVarNames (walRestoreBackendEnv wal) = ["RESTORE_GS_PREFIX"]) ∧
     (wal.s3 = none → wal.gcs = none → ∀ v, wal.azure = some v →
      selectNames restorePrefixVarNames (walRestoreBackendEnv wal) = ["RESTORE_AZ_PREFIX"]) ∧
     (wal.s3 = none → wal.gcs = none → wal.azure = none → ∀ v, wal.swift = some v →
      selectNames restorePrefixVarNames (walRestoreBackendEnv wal) = ["RESTORE_SWIFT_PREFIX"]) ∧
     (wal.s3 = none → wal.gcs = none → wal.azure = none → wal.swift = none →
      ∀ v, wal.localVol = some v →
      selectNames restorePrefixVarNames (walRestoreBackendEnv wal) = ["RESTORE_FILE_PREFIX"])) ∧
    (∀ v w, st.s3 = some v → st.gcs = some w →
      "ARCHIVE_S3_PREFIX" ∈ namesOf (storageArchiveEnv db st) ∧
      "ARCHIVE_GS_PREFIX" ∉ namesOf (storageArchiveEnv db st)) := by
  refine ⟨⟨?_, ?_, ?_, ?_, ?_⟩, ⟨?_, ?_, ?_, ?_, ?_⟩, ?_⟩
  · intro v h
    simp only [storageArchiveEnv, h, selectNames, namesOf, archivePrefixVarNames]
    split_ifs <;> simp
  · intro h0 v h
    simp [storageArchiveEnv, h0, h, selectNames, namesOf, archivePrefixVarNames]
  · intro h0 h1 v h
    simp [storageArchiveEnv, h0, h1, h, selectNames, namesOf, archivePrefixVarNames]
  · intro h0 h1 h2 v h
    simp [storageArchiveEnv, h0, h1, h2, h, selectNames, namesOf, archivePrefixVarNames]
  · intro h0 h1 h2 h3 v h
    simp [storageArchiveEnv, h0, h1, h2, h3, h, selectNames, namesOf, archivePrefixVarNames]
  · intro v h
    simp only [walRestoreBackendEnv, h, selectNames, namesOf, restorePrefixVarNames]
    split_ifs <;> simp
  · intro h0 v h
    simp [walRestoreBackendEnv, h0, h, selectNames, namesOf, restorePrefixVarNames]
  · intro h0 h1 v h
    simp [walRestoreBackendEnv, h0, h1, h, selectNames, namesOf, restorePrefixVarNames]
  · intro h0 h1 h2 v h
    simp [walRestoreBackendEnv, h0, h1, h2, h, selectNames, namesOf, restorePrefixVarNames]
  · intro h0 h1 h2 h3 v h
    simp [walRestoreBackendEnv, h0, h1, h2, h3, h, selectNames, namesOf, restorePrefixVarNames]
  · intro v w hv hw
    constructor
    · simp [storageArchiveEnv, hv, namesOf]
    · simp only [storageArchiveEnv, hv, namesOf]
      split_ifs <;> simp

/-- Witness for claim C4 at an archive storage with both S3 and GCS
populated and at a GCS-only restore source. -/
theorem claim_c4_witness :
    selectNames archivePrefixVarNames
        (storageArchiveEnv { name := "demo" }
          { s3 := some { bucket := "bk" }, gcs := some { bucket := "g" } }) =
      ["ARCHIVE_S3_PREFIX"] ∧
    selectNames restorePrefixVarNames
        (walRestoreBackendEnv { gcs := some { bucket := "g" } }) =
      ["RESTORE_GS_PREFIX"] ∧
    "ARCHIVE_GS_PREFIX" ∉ namesOf (storageArchiveEnv { name := "demo" }
      { s3 := some { bucket := "bk" }, gcs := some { bucket := "g" } }) := by
  refine ⟨?_, ?_, ?_⟩
  · exact (claim_c4_first_match { name := "demo" }
      { s3 := some { bucket := "bk" }, gcs := some { bucket := "g" } } {}).1.1 _ rfl
  · exact (claim_c4_first_match { name := "demo" } {}
      { gcs := some { bucket := "g" } }).2.1.2.1 rfl _ rfl
  · exact ((claim_c4_first_match { name := "demo" }
      { s3 := some { bucket := "bk" }, gcs := some { bucket := "g" } } {}).2.2
      _ _ rfl rfl).2

/-- Claim C5.  For an S3 archive storage, the ARCHIVE_S3_ENDPOINT variable
is emitted iff the endpoint is non-empty and does not end in
.amazonaws.com, and ARCHIVE_S3_REGION is emitted iff the region is
non-empty. -/
theorem claim_c5_s3_endpoint_region (db : Postgres) (st : Backend) (s3 : S3Spec)
    (h : st.s3 = some s3) :
    (("ARCHIVE_S3_ENDPOINT" ∈ namesOf (storageArchiveEnv db st)) ↔
      (s3.endpoint ≠ "" ∧ ¬ hasSuffix s3.endpoint (".amazonaws.com"))) ∧
    (("ARCHIVE_S3_REGION" ∈ namesOf (storageArchiveEnv db st)) ↔ s3.region ≠ "") := by
  simp only [storageArchiveEnv, h, namesOf]
  split_ifs with hc1 hc2 hc2 <;>
    simp_all [namesOf]

/-- Witness for claim C5: endpoint minio.example.com yields the endpoint
variable, endpoint s3.us-east-1.amazonaws.com yields none. -/
theorem claim_c5_witness :
    ("ARCHIVE_S3_ENDPOINT" ∈ namesOf (storageArchiveEnv { name := "demo" }
      { s3 := some { bucket := "bk", endpoint := "minio.example.com" } })) ∧
    ("ARCHIVE_S3_ENDPOINT" ∉ namesOf (storageArchiveEnv { name := "demo" }
      { s3 := some { bucket := "bk", endpoint := "s3.us-east-1.amazonaws.com" } })) := by
  constructor
  · exact (claim_c5_s3_endpoint_region _ _ _ rfl).1.mpr (by decide)
  · intro hmem
    exact absurd ((claim_c5_s3_endpoint_region _ _ _ rfl).1.mp hmem) (by decide)

-- C4 development

/-- Counterexample for claim C6.  The claim states that a restore WAL
source with a single backend set and the given PITR target yields exactly
the five variables RESTORE, the backend path variable, PITR,
TARGET_INCLUSIVE and TARGET_TIME.  An S3 source with a non-empty region is
such a source, yet walRecoveryConfig additionally emits RESTORE_S3_REGION:
six variables, not five. -/
theorem claim_c6_counterexample :
    (walRecoveryConfig c6wal).map namesOf =
      some ["RESTORE", "RESTORE_S3_PREFIX", "RESTORE_S3_REGION", "PITR",
            "TARGET_INCLUSIVE", "TARGET_TIME"] ∧
    (walRecoveryConfig c6wal).map namesOf ≠
      some ["RESTORE", "RESTORE_S3_PREFIX", "PITR", "TARGET_INCLUSIVE", "TARGET_TIME"] := by
  decide

-- C6 amended

/-- Claim C6 as amended.  For a restore WAL source with a single backend
set — where for S3 no endpoint or region override fires (here: both
empty) — and a PITR target with TargetInclusive true, TargetTime
2024-01-01T00:00:00Z and empty TargetTimeline and TargetXID,
walRecoveryConfig returns exactly RESTORE=true, the backend path variable,
PITR=true, TARGET_INCLUSIVE=true and TARGET_TIME, with no TARGET_TIMELINE
or TARGET_XID entries. -/
theorem claim_c6_pitr_env_exact :
    (∀ b p : String,
      walRecoveryConfig { s3 := some { bucket := b, pfx := p }, pitr := some c6pitr } =
        some [{ name := "RESTORE", value := "true" },
              { name := "RESTORE_S3_PREFIX", value := "s3://" ++ b ++ "/" ++ p },
              { name := "PITR", value := "true" },
              { name := "TARGET_INCLUSIVE", value := "true" },
              { name := "TARGET_TIME", value := "2024-01-01T00:00:00Z" }]) ∧
    (∀ b p : String,
      walRecoveryConfig { gcs := some { bucket := b, pfx := p }, pitr := some c6pitr } =
        some [{ name := "RESTORE", value := "true" },
              { name := "RESTORE_GS_PREFIX", value := "gs://" ++ b ++ "/" ++ p },
              { name := "PITR", value := "true" },
              { name := "TARGET_INCLUSIVE", value := "true" },
              { name := "TARGET_TIME", value := "2024-01-01T00:00:00Z" }]) ∧
    (∀ b p : String,
      walRecoveryConfig { azure := some { container := b, pfx := p }, pitr := some c6pitr } =
        some [{ name := "RESTORE", value := "true" },
              { name := "RESTORE_AZ_PREFIX", value := "azure://" ++ b ++ "/" ++ p },
              { name := "PITR", value := "true" },
              { name := "TARGET_INCLUSIVE", value := "true" },
              { name := "TARGET_TIME", value := "2024-01-01T00:00:00Z" }]) ∧
    (∀ b p : String,
      walRecoveryConfig { swift := some { container := b, pfx := p }, pitr := some c6pitr } =
        some [{ name := "RESTORE", value := "true" },
              { name := "RESTORE_SWIFT_PREFIX", value := "swift://" ++ b ++ "/" ++ p },
              { name := "PITR", value := "true" },
              { name := "TARGET_INCLUSIVE", value := "true" },
              { name := "TARGET_TIME", value := "2024-01-01T00:00:00Z" }]) ∧
    (∀ (mp sp : String) (vs : VolumeSource),
      walRecoveryConfig
          { localVol := some { mountPath := mp, subPath := sp, volumeSource := vs },
            pitr := some c6pitr } =
        some [{ name := "RESTORE", value := "true" },
              { name := "RESTORE_FILE_PREFIX", value := goPathJoin ["/", mp, sp] },
              { name := "PITR", value := "true" },
              { name := "TARGET_INCLUSIVE", value := "true" },
              { name := "TARGET_TIME", value := "2024-01-01T00:00:00Z" }]) := by
  refine ⟨?_, ?_, ?_, ?_, ?_⟩ <;> intros <;> rfl

-- C7

/-- Claim C7.  When a StatefulSet with the target name exists but its
labels do not carry both the database-kind and the database-name label,
ensureStatefulSet returns the naming-collision error with Outcome
Unchanged and the stored object untouched, before any mutation; a NotFound
result from the existence check passes the pre-check without error. -/
theorem claim_c7_naming_collision :
    (∀ (c : ControllerModel) (db : Postgres) (ver : PostgresVersionModel)
        (envList : List EnvVar) (s : StatefulSet) (existing : Option StatefulSet),
      (labelValue s.labels LabelDatabaseKind ≠ ResourceKindPostgres ∨
       labelValue s.labels LabelDatabaseName ≠ OffshootName db) →
      ensureStatefulSet c db ver envList (GetResult.found s) existing =
        some (VerbType.unchanged,
              some ("intended statefulSet \"" ++ db.ns ++ "/" ++ OffshootName db
                    ++ "\" already exists"),
              existing)) ∧
    (∀ db : Postgres, checkStatefulSet db GetResult.notFound = none) := by
  constructor
  · intro c db ver envList s existing h
    simp [ensureStatefulSet, checkStatefulSet, h]
  · intro db
    rfl

/-- Witness for claim C7 at a pre-existing object with no labels. -/
theorem claim_c7_witness :
    ensureStatefulSet {} { name := "demo", ns := "ns" } {} []
        (GetResult.found { name := "demo", ns := "ns" }) none =
      some (VerbType.unchanged,
            some ("intended statefulSet \"ns/demo\" already exists"), none) := by
  have h := claim_c7_naming_collision.1 {} { name := "demo", ns := "ns" } {} []
    { name := "demo", ns := "ns" } none (by decide)
  exact h

/-- Claim C10.  With non-ephemeral storage and an empty AccessModes list
on the storage claim spec, upsertDataVolume defaults the modes to exactly
ReadWriteOnce — mutating the database spec storage in place — before
upserting the volume claim template named data with that spec; a
non-empty AccessModes list is passed through unchanged; and the ephemeral
branch never adds a volume claim template. -/
theorem claim_c10_data_volume_claim :
    (∀ (sts : StatefulSet) (db : Postgres) (pvc : PVCSpecModel)
        (sts2 : StatefulSet) (db2 : Postgres),
      db.spec.storageType ≠ StorageTypeEphemeral →
      db.spec.storage = some pvc →
      pvc.accessModes = [] →
      hasPG sts.spec.template.spec.containers = true →
      upsertDataVolume sts db = some (sts2, db2) →
      db2.spec.storage = some { pvc with accessModes := [ReadWriteOnce] } ∧
      (findByName PersistentVolumeClaimModel.name sts2.spec.volumeClaimTemplates ("data")).map
          (fun cl => cl.spec) = some { pvc with accessModes := [ReadWriteOnce] }) ∧
    (∀ (sts : StatefulSet) (db : Postgres) (pvc : PVCSpecModel)
        (sts2 : StatefulSet) (db2 : Postgres),
      db.spec.storageType ≠ StorageTypeEphemeral →
      db.spec.storage = some pvc →
      pvc.accessModes ≠ [] →
      hasPG sts.spec.template.spec.containers = true →
      upsertDataVolume sts db = some (sts2, db2) →
      db2.spec.storage = some pvc ∧
      (findByName PersistentVolumeClaimModel.name sts2.spec.volumeClaimTemplates ("data")).map
          (fun cl => cl.spec) = some pvc) ∧
    (∀ (sts : StatefulSet) (db : Postgres) (r : StatefulSet × Postgres),
      db.spec.storageType = StorageTypeEphemeral →
      upsertDataVolume sts db = some r →
      r.1.spec.volumeClaimTemplates = sts.spec.volumeClaimTemplates) := by
  refine ⟨?_, ?_, ?_⟩
  · intro sts db pvc sts2 db2 ht hs hm hpg h
    unfold upsertDataVolume at h
    rw [Option.bind_eq_some] at h
    obtain ⟨mid, h1, h2⟩ := h
    obtain ⟨hcl, hpgeq⟩ := localVolumesPart_preserves sts db mid h1
    rw [hpg] at hpgeq
    unfold dataVolumeClaimStep at h2
    rw [if_pos hpgeq, if_neg ht] at h2
    simp [hs, hm] at h2
    obtain ⟨h2a, h2b⟩ := h2
    subst h2a
    subst h2b
    constructor
    · simp
    · have hf := findByName_upsertByName PersistentVolumeClaimModel.name
        mid.spec.volumeClaimTemplates
        { name := "data",
          annotations := match ({ pvc with accessModes := [ReadWriteOnce] } : PVCSpecModel).storageClassName with
            | some sc => [("volume.beta.kubernetes.io/storage-class", sc)]
            | none => [],
          spec := { pvc with accessModes := [ReadWriteOnce] } }
        ("data") rfl
      simp only [UpsertVolumeClaim]
      rw [hf]
      simp
  · intro sts db pvc sts2 db2 ht hs hm hpg h
    unfold upsertDataVolume at h
    rw [Option.bind_eq_some] at h
    obtain ⟨mid, h1, h2⟩ := h
    obtain ⟨hcl, hpgeq⟩ := localVolumesPart_preserves sts db mid h1
    rw [hpg] at hpgeq
    unfold dataVolumeClaimStep at h2
    rw [if_pos hpgeq, if_neg ht] at h2
    simp [hs, hm] at h2
    obtain ⟨h2a, h2b⟩ := h2
    subst h2a
    subst h2b
    constructor
    · simp
    · have hf := findByName_upsertByName PersistentVolumeClaimModel.name
        mid.spec.volumeClaimTemplates
        { name := "data",
          annotations := match pvc.storageClassName with
            | some sc => [("volume.beta.kubernetes.io/storage-class", sc)]
            | none => [],
          spec := pvc }
        ("data") rfl
      simp only [UpsertVolumeClaim]
      rw [hf]
      simp
  · intro sts db r ht h
    unfold upsertDataVolume at h
    rw [Option.bind_eq_some] at h
    obtain ⟨mid, h1, h2⟩ := h
    obtain ⟨hcl, _⟩ := localVolumesPart_preserves sts db mid h1
    unfold dataVolumeClaimStep at h2
    by_cases hpg : hasPG mid.spec.template.spec.containers = true
    · rw [if_pos hpg, if_pos ht] at h2
      obtain rfl := Option.some.inj h2
      exact hcl
    · rw [if_neg hpg] at h2
      obtain rfl := Option.some.inj h2
      exact hcl

/-- Witness for claim C10 at a one-container StatefulSet and a durable
storage claim spec with empty access modes. -/
theorem claim_c10_witness :
    (findByName PersistentVolumeClaimModel.name c10res.1.spec.volumeClaimTemplates ("data")).map
        (fun cl => cl.spec) =
      some { accessModes := [ReadWriteOnce], requestsStorage := some "1Gi" } ∧
    c10res.2.spec.storage =
      some { accessModes := [ReadWriteOnce], requestsStorage := some "1Gi" } := by
  have h := claim_c10_data_volume_claim.1 c10sts c10db
    { requestsStorage := some "1Gi" } c10res.1 c10res.2
    (by decide) rfl rfl (by decide) (by decide)
  exact ⟨h.2, h.1⟩

end PostgresController
